import Mathlib

/-!
Formal model of the Reverse Beacon Network overlay plugin
(`src/plugins/layers/useRBN.js`).

The JavaScript source is embedded shallowly:

* JavaScript numbers are modelled exactly by `JSNum` (`nan`, signed
  infinities, or a rational); IEEE-754 rounding is abstracted away, every
  arithmetic step is exact.  All quantities the claims mention are small
  decimal fractions, so this abstraction is faithful for them.
* `null`/`undefined` record fields become `Option` fields; the JavaScript
  truthiness coalescing `a || b` is modelled by the `jsOr*` helpers
  (`0`, `""`, `NaN` are falsy).
* The React component's state is a record `RBNState`; the fetch
  continuation and the effect bodies become explicit state-transition
  functions, and a `step` function runs one event (enable toggle or the
  resolution of an in-flight fetch) followed by the effect bodies, in
  source order.
-/

namespace RBN

/-- A JavaScript number: `NaN`, a signed infinity, or a finite value
(modelled as an exact rational). -/
inductive JSNum where
  | nan : JSNum
  | inf : Bool → JSNum
  | fin : ℚ → JSNum
deriving DecidableEq, Repr

/-- `isFinite` from JavaScript. -/
def JSNum.isFinite : JSNum → Bool
  | .fin _ => true
  | _ => false

/-- JavaScript `+` on numbers. -/
def JSNum.add : JSNum → JSNum → JSNum
  | .fin a, .fin b => .fin (a + b)
  | .nan, _ => .nan
  | _, .nan => .nan
  | .inf s, .inf t => if s = t then .inf s else .nan
  | .inf s, .fin _ => .inf s
  | .fin _, .inf t => .inf t

/-- JavaScript unary minus on numbers. -/
def JSNum.neg : JSNum → JSNum
  | .nan => .nan
  | .inf s => .inf (!s)
  | .fin a => .fin (-a)

/-- JavaScript `-` on numbers. -/
def JSNum.sub (a b : JSNum) : JSNum := a.add b.neg

/-- JavaScript `*` on numbers. -/
def JSNum.mul : JSNum → JSNum → JSNum
  | .fin a, .fin b => .fin (a * b)
  | .nan, _ => .nan
  | _, .nan => .nan
  | .inf s, .inf t => .inf (s = t)
  | .inf s, .fin b => if b = 0 then .nan else .inf (s = (0 < b))
  | .fin a, .inf t => if a = 0 then .nan else .inf (t = (0 < a))

/-- JavaScript `Math.abs`. -/
def JSNum.abs : JSNum → JSNum
  | .nan => .nan
  | .inf _ => .inf true
  | .fin a => .fin |a|

/-- JavaScript `<` on numbers; every comparison with `NaN` is false. -/
def JSNum.lt : JSNum → JSNum → Bool
  | .nan, _ => false
  | _, .nan => false
  | .fin a, .fin b => a < b
  | .inf s, .inf t => !s && t
  | .inf s, .fin _ => !s
  | .fin _, .inf t => t

/-- A latitude/longitude pair as produced by `gridToLatLon`; either
component can be `NaN` when the input was malformed. -/
structure Coord where
  lat : JSNum
  lon : JSNum
deriving DecidableEq, Repr

/-- JavaScript `parseInt` applied to a single character: the digit value,
or `NaN` when the character is not a decimal digit. -/
def parseDigit (c : Char) : JSNum :=
  if c.isDigit then .fin ((c.toNat : ℚ) - 48) else .nan

/-- `gridToLatLon` (useRBN.js lines 31-51) over the character list of the
input string.  Mirrors the source: a length guard, `toUpperCase`, then
unchecked character arithmetic; `parseInt` on a non-digit yields `NaN`,
which propagates through the additions. -/
def gridToLatLonL (g : List Char) : Option Coord :=
  if g.length < 4 then none
  else
    let u := g.map Char.toUpper
    let lon : ℚ := (((u.getD 0 'A').toNat : ℚ) - 65) * 20 - 180
    let lat : ℚ := (((u.getD 1 'A').toNat : ℚ) - 65) * 10 - 90
    let lon2 : JSNum := (parseDigit (u.getD 2 'A')).mul (.fin 2)
    let lat2 : JSNum := parseDigit (u.getD 3 'A')
    if 6 ≤ g.length then
      let lon3 : ℚ := (((u.getD 4 'A').toNat : ℚ) - 65) * (2/24)
      let lat3 : ℚ := (((u.getD 5 'A').toNat : ℚ) - 65) * (1/24)
      some ⟨((JSNum.fin lat).add lat2).add (.fin (lat3 + 0.5/24)),
            ((JSNum.fin lon).add lon2).add (.fin (lon3 + 1/24))⟩
    else
      some ⟨((JSNum.fin lat).add lat2).add (.fin 0.5),
            ((JSNum.fin lon).add lon2).add (.fin 1)⟩

/-- `gridToLatLon` on a string.  A JavaScript `null`/`undefined` argument
is not representable; the empty string takes the same early-return path. -/
def gridToLatLon (s : String) : Option Coord := gridToLatLonL s.data

/-- `getSNRColor` (useRBN.js lines 54-61); `none` models
`null`/`undefined`. -/
def getSNRColor (snr : Option ℚ) : String :=
  match snr with
  | none => "#888888"
  | some s =>
    if s < 0 then "#ff3333"
    else if s < 10 then "#ff9933"
    else if s < 20 then "#ffcc33"
    else if s < 30 then "#99ff33"
    else "#33ff33"

/-- `getMarkerSize` (useRBN.js lines 64-71). -/
def getMarkerSize (snr : Option ℚ) : ℕ :=
  match snr with
  | none => 6
  | some s =>
    if s < 0 then 6
    else if s < 10 then 8
    else if s < 20 then 10
    else if s < 30 then 12
    else 14

/-- `freqToBand` (useRBN.js lines 121-135).  The source reassigns
`freq = freq / 1000`; here the division is inlined into each comparison. -/
def freqToBand (freq : ℚ) : String :=
  if 1.8 ≤ freq / 1000 ∧ freq / 1000 < 2.0 then "160m"
  else if 3.5 ≤ freq / 1000 ∧ freq / 1000 < 4.0 then "80m"
  else if 5.3 ≤ freq / 1000 ∧ freq / 1000 < 5.4 then "60m"
  else if 7.0 ≤ freq / 1000 ∧ freq / 1000 < 7.3 then "40m"
  else if 10.1 ≤ freq / 1000 ∧ freq / 1000 < 10.15 then "30m"
  else if 14.0 ≤ freq / 1000 ∧ freq / 1000 < 14.35 then "20m"
  else if 18.068 ≤ freq / 1000 ∧ freq / 1000 < 18.168 then "17m"
  else if 21.0 ≤ freq / 1000 ∧ freq / 1000 < 21.45 then "15m"
  else if 24.89 ≤ freq / 1000 ∧ freq / 1000 < 24.99 then "12m"
  else if 28.0 ≤ freq / 1000 ∧ freq / 1000 < 29.7 then "10m"
  else if 50.0 ≤ freq / 1000 ∧ freq / 1000 < 54.0 then "6m"
  else "Other"

/-! ## Spot records, statistics and the fetch path -/

/-- One raw record of the JSON feed; every field can be absent, and each
logical attribute has two accepted spellings. -/
structure RawSpot where
  timestamp : Option ℤ
  time : Option ℤ
  snr : Option ℚ
  db : Option ℚ
  callsign : Option String
  de : Option String
  grid : Option String
  de_grid : Option String
  frequency : Option ℚ
  freq : Option ℚ
deriving DecidableEq, Repr

/-- JavaScript `a || b` on possibly-absent numbers (`0` is falsy; feed
values come from JSON, which cannot carry `NaN`). -/
def jsOrQ (a b : Option ℚ) : Option ℚ :=
  match a with
  | some q => if q = 0 then b else some q
  | none => b

/-- JavaScript `a || b` on possibly-absent strings (`""` is falsy). -/
def jsOrStr (a b : Option String) : Option String :=
  match a with
  | some s => if s = "" then b else some s
  | none => b

/-- JavaScript `a || b` on possibly-absent integer timestamps. -/
def jsOrInt (a b : Option ℤ) : Option ℤ :=
  match a with
  | some t => if t = 0 then b else some t
  | none => b

/-- `new Date(spot.timestamp || spot.time).getTime()`: date parsing is
abstracted to the numeric instant already carried by the field; when both
spellings are absent the result is `NaN`. -/
def spotTime (s : RawSpot) : JSNum :=
  match jsOrInt s.timestamp s.time with
  | some t => .fin t
  | none => .nan

/-- The time-window filter of `fetchRBNSpots` (useRBN.js lines 174-181):
keep spots with `spotTime > now - timeWindow*60*1000`. -/
def recentFilter (now timeWindow : ℤ) (data : List RawSpot) : List RawSpot :=
  data.filter (fun s => (JSNum.fin ((now : ℚ) - (timeWindow : ℚ) * 60 * 1000)).lt (spotTime s))

/-- The `stats` record of the component.  The source stores the average as
the string `toFixed(1)` (or the number `0`); both are modelled as the
rational they denote. -/
structure Stats where
  total : ℕ
  skimmers : ℕ
  avgSNR : ℚ
deriving DecidableEq, Repr

/-- JavaScript `x.toFixed(1)` as a rational (round half away from zero
agrees with round half up on the feed's non-negative sums; exact rationals
stand in for the binary floats). -/
def jsToFixed1 (q : ℚ) : ℚ := (round (q * 10) : ℤ) / 10

/-- The statistics block of `fetchRBNSpots` (useRBN.js lines 185-198),
computed from the retained (time-filtered) spot list. -/
def computeStats (recent : List RawSpot) : Stats :=
  let validSNRs := (recent.map (fun s => jsOrQ s.snr s.db)).filterMap id
  let uniqueSkimmers := (recent.map (fun s => jsOrStr s.callsign s.de)).dedup
  ⟨recent.length, uniqueSkimmers.length,
    if validSNRs.length ≠ 0 then jsToFixed1 (validSNRs.foldl (· + ·) 0 / validSNRs.length)
    else 0⟩

/-- Console diagnostics emitted by the fetch path. -/
inductive LogEvent where
  | noCallsign : LogEvent
  | fetching : String → LogEvent
  | received : ℕ → LogEvent
  | fetchError : LogEvent
deriving DecidableEq, Repr

/-- How one network retrieval resolves: rejected fetch / failed JSON
parse (both throw), an HTTP response with its `ok` status, or a parsed
body that may or may not be an array. -/
inductive FetchOutcome where
  | netError : FetchOutcome
  | httpError : ℕ → FetchOutcome
  | ok : Option (List RawSpot) → FetchOutcome
deriving Repr

/-! ## Drawable primitives and the render pass -/

/-- Result of `getGreatCirclePath`: either one of the two guarded
two-point straight segments, or the spherical interpolation output. -/
inductive PathResult where
  | segment : List (JSNum × JSNum) → PathResult
  | interp : List (ℝ × ℝ) → PathResult

/-- `Math.atan2 y x`, as the argument of the complex number `x + iy`. -/
noncomputable def atan2 (y x : ℝ) : ℝ := Complex.arg ⟨x, y⟩

/-- The real value of a finite `JSNum` (junk value `0` elsewhere; only
applied under the finiteness guard). -/
def JSNum.toReal : JSNum → ℝ
  | .fin q => (q : ℝ)
  | _ => 0

/-- The spherical interpolation loop of `getGreatCirclePath`
(useRBN.js lines 85-117). -/
noncomputable def sphericalSlerp (lat1 lon1 lat2 lon2 : ℝ) (numPoints : ℕ) : List (ℝ × ℝ) :=
  let lat1R := lat1 * Real.pi / 180
  let lon1R := lon1 * Real.pi / 180
  let lat2R := lat2 * Real.pi / 180
  let lon2R := lon2 * Real.pi / 180
  let d := Real.arccos (Real.sin lat1R * Real.sin lat2R +
    Real.cos lat1R * Real.cos lat2R * Real.cos (lon2R - lon1R))
  (List.range (numPoints + 1)).map (fun i =>
    let f : ℝ := (i : ℝ) / (numPoints : ℝ)
    let A := Real.sin ((1 - f) * d) / Real.sin d
    let B := Real.sin (f * d) / Real.sin d
    let x := A * Real.cos lat1R * Real.cos lon1R + B * Real.cos lat2R * Real.cos lon2R
    let y := A * Real.cos lat1R * Real.sin lon1R + B * Real.cos lat2R * Real.sin lon2R
    let z := A * Real.sin lat1R + B * Real.sin lat2R
    (atan2 z (Real.sqrt (x * x + y * y)) * 180 / Real.pi,
     atan2 y x * 180 / Real.pi))

/-- `getGreatCirclePath` (useRBN.js lines 74-118): the non-finite guard,
then the short-distance guard, then the spherical interpolation. -/
noncomputable def getGreatCirclePath (lat1 lon1 lat2 lon2 : JSNum) (numPoints : ℕ) : PathResult :=
  if ¬(lat1.isFinite && lon1.isFinite && lat2.isFinite && lon2.isFinite) = true then
    .segment [(lat1, lon1), (lat2, lon2)]
  else if (((lat2.sub lat1).abs.lt (.fin 0.5)) && ((lon2.sub lon1).abs.lt (.fin 0.5))) = true then
    .segment [(lat1, lon1), (lat2, lon2)]
  else
    .interp (sphericalSlerp lat1.toReal lon1.toReal lat2.toReal lon2.toReal numPoints)

/-- `spot.snr || spot.db || 0` and `spot.frequency || spot.freq || 0`. -/
def jsNumOr0 (a b : Option ℚ) : ℚ := ((jsOrQ (jsOrQ a b) (some 0)).getD 0)

/-- The SNR value used by the redraw pass (useRBN.js lines 239 and 257). -/
def snrOfR (s : RawSpot) : ℚ := jsNumOr0 s.snr s.db

/-- The frequency value used by the redraw pass (useRBN.js lines 238, 258). -/
def freqOfR (s : RawSpot) : ℚ := jsNumOr0 s.frequency s.freq

/-- The band of a spot as the redraw pass computes it. -/
def bandOf (s : RawSpot) : String := freqToBand (freqOfR s)

/-- The band/SNR filter of the redraw pass (useRBN.js lines 237-245). -/
def passesFilter (selectedBand : String) (minSNR : ℚ) (s : RawSpot) : Bool :=
  if selectedBand ≠ "All" ∧ bandOf s ≠ selectedBand then false
  else if snrOfR s < minSNR then false
  else true

/-- A drawable primitive handed to the map surface, with the style fields
the claims are about. -/
inductive Primitive where
  | pathLine : PathResult → String → Primitive
  | marker : Coord → ℕ → String → String → Primitive

/-- The primitives emitted for one filtered spot (useRBN.js lines
250-308): nothing for a falsy or unresolvable grid; otherwise an optional
great-circle path line plus a circle marker, both styled from the SNR. -/
noncomputable def spotPrimitives (home : ℚ × ℚ) (showPaths : Bool) (spot : RawSpot) : List Primitive :=
  match jsOrStr spot.grid spot.de_grid with
  | none => []
  | some g =>
    if g = "" then []
    else
      match gridToLatLon g with
      | none => []
      | some loc =>
        let snr := snrOfR spot
        (if showPaths then
          [Primitive.pathLine (getGreatCirclePath (.fin home.1) (.fin home.2) loc.lat loc.lon 30)
            (getSNRColor (some snr))]
        else []) ++
        [Primitive.marker loc (getMarkerSize (some snr)) (getSNRColor (some snr)) "#ffffff"]

/-! ## Component state and lifecycle -/

/-- The component's own state: the enable flag, the retained spots, the
statistics, and the primitives currently on the drawing surface. -/
structure RBNState where
  enabled : Bool
  spots : List RawSpot
  stats : Stats
  layers : List Primitive

/-- The props and filter values that stay fixed across one step. -/
structure Config where
  callsign : String
  map : Bool
  selectedBand : String
  minSNR : ℚ
  timeWindow : ℤ
  showPaths : Bool
  home : ℚ × ℚ

/-- The body of the `try` block of `fetchRBNSpots` (useRBN.js lines
156-199): a rejected fetch or a non-`ok` response throws; an array body
replaces spots and stats; a non-array body changes nothing. -/
def fetchTry (outcome : FetchOutcome) (now timeWindow : ℤ) (st : RBNState) :
    Except String (RBNState × List LogEvent) :=
  match outcome with
  | .netError => .error "fetch failed"
  | .httpError status => .error ("RBN API error: " ++ toString status)
  | .ok body =>
    let logs := [LogEvent.received (match body with | some l => l.length | none => 0)]
    match body with
    | some data =>
      let recent := recentFilter now timeWindow data
      .ok ({ st with spots := recent, stats := computeStats recent }, logs)
    | none => .ok (st, logs)

/-- `fetchRBNSpots` (useRBN.js lines 150-203): the callsign guard, then
the `try`/`catch` — every thrown error is swallowed and logged, and no
state is written on the error path. -/
def fetchRBNSpots (callsign : String) (outcome : FetchOutcome) (now timeWindow : ℤ)
    (st : RBNState) : RBNState × List LogEvent :=
  if callsign = "" ∨ callsign = "N0CALL" then (st, [.noCallsign])
  else
    match fetchTry outcome now timeWindow st with
    | .ok (st2, logs) => (st2, .fetching callsign :: logs)
    | .error _ => (st, [.fetching callsign, .fetchError])

/-- The primitives of one full redraw (useRBN.js lines 236-308). -/
noncomputable def buildPrims (cfg : Config) (spots : List RawSpot) : List Primitive :=
  ((spots.filter (passesFilter cfg.selectedBand cfg.minSNR)).map
    (spotPrimitives cfg.home cfg.showPaths)).flatten

/-- The render effect (useRBN.js lines 220-310): skipped without a map or
when disabled; otherwise it clears every tracked primitive and redraws
the filtered spot set. -/
noncomputable def renderEffect (cfg : Config) (st : RBNState) : RBNState :=
  if cfg.map = false ∨ st.enabled = false then st
  else if st.spots = [] then { st with layers := [] }
  else { st with layers := buildPrims cfg st.spots }

/-- The cleanup effect (useRBN.js lines 425-439): when disabled, every
tracked primitive is removed. -/
def cleanupEffect (st : RBNState) : RBNState :=
  if st.enabled = false then { st with layers := [] } else st

/-- One React commit: the effect bodies run in source order. -/
noncomputable def applyEffects (cfg : Config) (st : RBNState) : RBNState :=
  cleanupEffect (renderEffect cfg st)

/-- An event of the cooperative main loop: toggling the overlay, or the
resolution of an in-flight retrieval (which can arrive after a disable,
since nothing cancels it). -/
inductive Event where
  | setEnabled : Bool → Event
  | fetchResolve : FetchOutcome → ℤ → Event

/-- One step of the component: apply the event, then re-run the effects. -/
noncomputable def step (cfg : Config) (st : RBNState) : Event → RBNState
  | .setEnabled b => applyEffects cfg { st with enabled := b }
  | .fetchResolve outcome now =>
    applyEffects cfg (fetchRBNSpots cfg.callsign outcome now cfg.timeWindow st).1

/-! ## Specification-side definitions

These follow the wording of the specification and are compared against
the definitions above, which were translated from the source. -/

/-- Zero-based index of a field/sub-square letter, case-insensitively. -/
def letterIdx (c : Char) : ℚ := (c.toUpper.toNat : ℚ) - 65

/-- Value of a digit character. -/
def digitIdx (c : Char) : ℚ := (c.toNat : ℚ) - 48

/-- A well-formed Maidenhead locator per the specification: 4 or 6
characters, two field letters in `A`–`R` (case-insensitive), two digits,
and optionally two sub-square letters in `A`–`X` (case-insensitive). -/
def ValidLocator (g : List Char) : Prop :=
  (g.length = 4 ∨ g.length = 6) ∧
  ('A' ≤ (g.getD 0 ' ').toUpper ∧ (g.getD 0 ' ').toUpper ≤ 'R') ∧
  ('A' ≤ (g.getD 1 ' ').toUpper ∧ (g.getD 1 ' ').toUpper ≤ 'R') ∧
  (g.getD 2 ' ').isDigit = true ∧ (g.getD 3 ' ').isDigit = true ∧
  (g.length = 6 →
    ('A' ≤ (g.getD 4 ' ').toUpper ∧ (g.getD 4 ' ').toUpper ≤ 'X') ∧
    ('A' ≤ (g.getD 5 ' ').toUpper ∧ (g.getD 5 ' ').toUpper ≤ 'X'))

instance (g : List Char) : Decidable (ValidLocator g) := by
  unfold ValidLocator; infer_instance

/-- South-west-corner longitude of the square or sub-square a locator
names: 20°-wide fields, 2°-wide squares, `2/24`°-wide sub-squares. -/
def swLon (g : List Char) : ℚ :=
  letterIdx (g.getD 0 ' ') * 20 - 180 + digitIdx (g.getD 2 ' ') * 2 +
    (if g.length = 6 then letterIdx (g.getD 4 ' ') * (2/24) else 0)

/-- South-west-corner latitude: 10°-tall fields, 1°-tall squares,
`1/24`°-tall sub-squares. -/
def swLat (g : List Char) : ℚ :=
  letterIdx (g.getD 1 ' ') * 10 - 90 + digitIdx (g.getD 3 ' ') +
    (if g.length = 6 then letterIdx (g.getD 5 ' ') * (1/24) else 0)

/-- Half the longitude span of the resolved square or sub-square. -/
def lonHalfSpan (g : List Char) : ℚ := if g.length = 6 then 1/24 else 1

/-- Half the latitude span of the resolved square or sub-square. -/
def latHalfSpan (g : List Char) : ℚ := if g.length = 6 then 1/48 else 1/2

/-- One row of the specification's band table, in MHz. -/
structure BandRange where
  lo : ℚ
  hi : ℚ
  name : String
deriving DecidableEq, Repr

/-- The specification's fixed band table (§8): disjoint inclusive-lower /
exclusive-upper ranges in MHz. -/
def bandTable : List BandRange :=
  [⟨1.8, 2.0, "160m"⟩, ⟨3.5, 4.0, "80m"⟩, ⟨5.3, 5.4, "60m"⟩, ⟨7.0, 7.3, "40m"⟩,
   ⟨10.1, 10.15, "30m"⟩, ⟨14.0, 14.35, "20m"⟩, ⟨18.068, 18.168, "17m"⟩,
   ⟨21.0, 21.45, "15m"⟩, ⟨24.89, 24.99, "12m"⟩, ⟨28.0, 29.7, "10m"⟩,
   ⟨50.0, 54.0, "6m"⟩]

/-- The classifier as the specification words it: divide by 1000, take the
first row of the (ordered, disjoint) band table whose range contains the
quotient, default to `"Other"`. -/
def classifySpec (freq : ℚ) : String :=
  bandTable.foldr (fun r acc => if r.lo ≤ freq / 1000 ∧ freq / 1000 < r.hi then r.name else acc)
    "Other"

/-- The statistics as the (amended) specification words them: the count,
the cardinality of the set of coalesced reporter identifiers, and the
rounded mean of the truthy-coalesced SNR values. -/
def specStatsAmended (recent : List RawSpot) : Stats :=
  ⟨recent.length,
   ((recent.map (fun s => jsOrStr s.callsign s.de)).toFinset).card,
   (let vals := (recent.map (fun s => jsOrQ s.snr s.db)).reduceOption
    if vals.length ≠ 0 then jsToFixed1 (vals.sum / vals.length) else 0)⟩

/-- The SNR values that are present on a spot under either accepted field
spelling — the reading of "present SNR values" in the original claim. -/
def presentSNRs (l : List RawSpot) : List ℚ :=
  l.filterMap (fun s => match s.snr with | some q => some q | none => s.db)

/-- The original claim's average: the mean of all present SNR values
rounded to one decimal place, or 0 when none is present. -/
def claimAvgSNR (l : List RawSpot) : ℚ :=
  if (presentSNRs l).length ≠ 0 then
    jsToFixed1 ((presentSNRs l).sum / (presentSNRs l).length)
  else 0

/-! ## Concrete fixtures for counterexamples and witnesses -/

/-- A spot carrying only an SNR value (first spelling). -/
def snrSpot (q : Option ℚ) : RawSpot :=
  ⟨none, none, q, none, none, none, none, none, none, none⟩

/-- A spot carrying only a reporter callsign (first spelling). -/
def reporterSpot (c : String) : RawSpot :=
  ⟨none, none, none, none, some c, none, none, none, none, none⟩

/-- A retained spot of the session before the disable. -/
def spotA : RawSpot :=
  ⟨some 1000, none, some 10, none, some "K1A", none, some "FN20", none, some 14000, none⟩

/-- The spot delivered by the late-arriving response. -/
def spotB : RawSpot :=
  ⟨some 999000000, none, some 5, none, some "K1TTT", none, some "FN32", none, some 14050, none⟩

/-- A configured session: valid callsign, map present, no band filter. -/
def cfg0 : Config := ⟨"AB1CD", true, "All", -10, 30, true, (43.6785, -79.2935)⟩

/-- A primitive sitting on the drawing surface before the disable. -/
def demoMarker : Primitive := .marker ⟨.fin 40.5, .fin (-75)⟩ 8 "#ff9933" "#ffffff"

/-- A spot with no SNR under either spelling but a resolvable grid. -/
def spotC : RawSpot :=
  ⟨none, none, none, none, some "N1MM", none, some "FN20", none, some 14100, none⟩

/-- Session state while the retrieval is in flight. -/
def st0 : RBNState := ⟨true, [spotA], computeStats [spotA], [demoMarker]⟩

/-- State after the overlay is disabled (retrieval still pending). -/
noncomputable def st1 : RBNState := step cfg0 st0 (.setEnabled false)

/-- State after the pending retrieval resolves with one fresh spot. -/
noncomputable def st2 : RBNState :=
  step cfg0 st1 (.fetchResolve (.ok (some [spotB])) 1000000000)

/-- A plain disabled state, used to instantiate the lifecycle theorems. -/
def stDis : RBNState := ⟨false, [], ⟨0, 0, 0⟩, []⟩

/-! ## Helper lemmas -/

/-- `toUpperCase` leaves decimal digits unchanged. -/
theorem toUpper_of_isDigit {c : Char} (h : c.isDigit = true) : c.toUpper = c := by
  have h57 : c.toNat ≤ 57 := by
    simp [Char.isDigit, Char.toNat] at h
    simpa [UInt32.le_def, BitVec.le_def] using h.2
  unfold Char.toUpper
  have hne : ¬(c.toNat ≥ 97 ∧ c.toNat ≤ 122) := by omega
  simp [hne]

/-- A list of length 4 is four explicit elements. -/
theorem list_len4 {α : Type} {l : List α} (h : l.length = 4) :
    ∃ a b c d, l = [a, b, c, d] := by
  rcases l with _ | ⟨a, l⟩
  · simp at h
  rcases l with _ | ⟨b, l⟩
  · simp at h
  rcases l with _ | ⟨c, l⟩
  · simp at h
  rcases l with _ | ⟨d, l⟩
  · simp at h
  rcases l with _ | ⟨e, l⟩
  · exact ⟨a, b, c, d, rfl⟩
  · simp at h

/-- A list of length 6 is six explicit elements. -/
theorem list_len6 {α : Type} {l : List α} (h : l.length = 6) :
    ∃ a b c d e f, l = [a, b, c, d, e, f] := by
  rcases l with _ | ⟨a, l⟩
  · simp at h
  rcases l with _ | ⟨b, l⟩
  · simp at h
  rcases l with _ | ⟨c, l⟩
  · simp at h
  rcases l with _ | ⟨d, l⟩
  · simp at h
  rcases l with _ | ⟨e, l⟩
  · simp at h
  rcases l with _ | ⟨f, l⟩
  · simp at h
  rcases l with _ | ⟨g, l⟩
  · exact ⟨a, b, c, d, e, f, rfl⟩
  · simp at h

/-! ## Claim theorems -/

/-- C4: the band classifier divides the provided value by 1000 and maps
the quotient through the fixed table of disjoint inclusive-lower /
exclusive-upper MHz ranges for 160m…6m, returning "Other" outside all
ranges; `classify 7100 = "40m"`, `classify 7300 = "Other"`,
`classify 14349 = "20m"`, `classify 14350 = "Other"`. -/
theorem freqToBand_matches_spec :
    (∀ f : ℚ, freqToBand f = classifySpec f) ∧
    bandTable.Pairwise (fun a b => a.hi ≤ b.lo ∨ b.hi ≤ a.lo) ∧
    freqToBand 7100 = "40m" ∧ freqToBand 7300 = "Other" ∧
    freqToBand 14349 = "20m" ∧ freqToBand 14350 = "Other" := by
  refine ⟨?_, ?_, ?_, ?_, ?_, ?_⟩
  · intro f
    rfl
  · simp [bandTable, List.pairwise_cons]
    norm_num
  all_goals norm_num [freqToBand]

/-- C8: the signal classifier partitions SNR into exactly the five tiers
`<0`, `[0,10)`, `[10,20)`, `[20,30)`, `≥30` with one fixed color and one
fixed radius per tier, pairwise-distinct colors, strictly increasing
radii, and absent SNR mapping to neutral gray and the smallest radius. -/
theorem snr_classifier_tiers :
    getSNRColor none = "#888888" ∧ getMarkerSize none = 6 ∧
    (∀ q : ℚ, getSNRColor (some q) = "#ff3333" ↔ q < 0) ∧
    (∀ q : ℚ, getSNRColor (some q) = "#ff9933" ↔ 0 ≤ q ∧ q < 10) ∧
    (∀ q : ℚ, getSNRColor (some q) = "#ffcc33" ↔ 10 ≤ q ∧ q < 20) ∧
    (∀ q : ℚ, getSNRColor (some q) = "#99ff33" ↔ 20 ≤ q ∧ q < 30) ∧
    (∀ q : ℚ, getSNRColor (some q) = "#33ff33" ↔ 30 ≤ q) ∧
    (∀ q : ℚ, getMarkerSize (some q) = 6 ↔ q < 0) ∧
    (∀ q : ℚ, getMarkerSize (some q) = 8 ↔ 0 ≤ q ∧ q < 10) ∧
    (∀ q : ℚ, getMarkerSize (some q) = 10 ↔ 10 ≤ q ∧ q < 20) ∧
    (∀ q : ℚ, getMarkerSize (some q) = 12 ↔ 20 ≤ q ∧ q < 30) ∧
    (∀ q : ℚ, getMarkerSize (some q) = 14 ↔ 30 ≤ q) ∧
    List.Pairwise (· ≠ ·)
      ["#888888", "#ff3333", "#ff9933", "#ffcc33", "#99ff33", "#33ff33"] ∧
    getMarkerSize (some (-1)) < getMarkerSize (some 1) ∧
    getMarkerSize (some 1) < getMarkerSize (some 11) ∧
    getMarkerSize (some 11) < getMarkerSize (some 21) ∧
    getMarkerSize (some 21) < getMarkerSize (some 31) ∧
    (∀ q : ℚ, getMarkerSize none ≤ getMarkerSize (some q)) := by
  refine ⟨rfl, rfl, ?_, ?_, ?_, ?_, ?_, ?_, ?_, ?_, ?_, ?_, ?_, ?_, ?_, ?_, ?_, ?_⟩ <;>
    first
    | (intro q
       simp only [getSNRColor, getMarkerSize]
       split_ifs <;> simp_all <;>
         first
         | linarith
         | (constructor <;> linarith)
         | (rintro ⟨ha, hb⟩ ; linarith)
         | (intro h ; linarith))
    | decide
    | norm_num [getMarkerSize]

/-- C2 counterexample: `"ZZ99"` has both field letters outside `A`–`R`,
yet the resolver returns a coordinate object (with out-of-range
components), not `None`. -/
theorem gridToLatLon_ZZ99_not_none :
    ('R' < 'Z') ∧ gridToLatLon "ZZ99" = some ⟨.fin 169.5, .fin 339⟩ ∧
    gridToLatLon "ZZ99" ≠ none := by
  have h : "ZZ99".data = ['Z', 'Z', '9', '9'] := by decide
  have he : gridToLatLon "ZZ99" = some ⟨.fin 169.5, .fin 339⟩ := by
    rw [gridToLatLon, h]
    simp [gridToLatLonL, parseDigit, Char.isDigit, Char.toUpper, JSNum.add, JSNum.mul]
    norm_num
  exact ⟨by decide, he, by rw [he] ; simp⟩

/-- C2 amended: the resolver returns `None` exactly on inputs shorter
than 4 characters (including the empty string); no character-range
validation is performed, so any other input yields a coordinate object,
possibly with out-of-range or `NaN` components. -/
theorem gridToLatLon_none_iff :
    (∀ g : List Char, gridToLatLonL g = none ↔ g.length < 4) ∧
    gridToLatLon "" = none ∧ gridToLatLon "A" = none := by
  have hmain : ∀ g : List Char, gridToLatLonL g = none ↔ g.length < 4 := by
    intro g
    unfold gridToLatLonL
    by_cases h : g.length < 4
    · simp [h]
    · simp only [if_neg h]
      split <;> simp [h]
  refine ⟨hmain, ?_, ?_⟩
  · rw [gridToLatLon, hmain]
    decide
  · rw [gridToLatLon, hmain]
    decide

/-- C5 counterexample: the resolver maps `"FN20"` to latitude 40.5 and
longitude −75; the longitude misses the claimed value −71 by 4°, more
than the full 2° width of a grid square, so the result is not near
{lat ≈ 42.5, lon ≈ −71} under any per-axis tolerance of 1°. -/
theorem gridToLatLon_FN20_not_near_claim :
    gridToLatLon "FN20" = some ⟨.fin 40.5, .fin (-75)⟩ ∧
    ¬(|(40.5 : ℚ) - 42.5| ≤ 1 ∧ |(-75 : ℚ) - (-71)| ≤ 1) ∧
    |(-75 : ℚ) - (-71)| = 4 := by
  have h : "FN20".data = ['F', 'N', '2', '0'] := by decide
  refine ⟨?_, by norm_num, by norm_num⟩
  rw [gridToLatLon, h]
  simp [gridToLatLonL, parseDigit, Char.isDigit, Char.toUpper, JSNum.add, JSNum.mul]
  norm_num

/-- C5 amended: `resolve "FN20"` is the center {lat 40.5, lon −75} of the
square whose south-west corner is (40, −76); the six-character lowercase
`"fn20xp"` resolves strictly inside that square's bounds
(−76 < lon < −74, 40 < lat < 41) with strictly smaller half-spans, i.e.
strictly more precisely. -/
theorem gridToLatLon_FN20_center_and_subsquare :
    gridToLatLon "FN20" = some ⟨.fin 40.5, .fin (-75)⟩ ∧
    gridToLatLon "fn20xp" = some ⟨.fin (40 + 31/48), .fin (-76 + 47/24)⟩ ∧
    swLat "FN20".data = 40 ∧ swLon "FN20".data = -76 ∧
    (-76 : ℚ) < -76 + 47/24 ∧ (-76 + 47/24 : ℚ) < -74 ∧
    (40 : ℚ) < 40 + 31/48 ∧ (40 + 31/48 : ℚ) < 41 ∧
    lonHalfSpan "fn20xp".data < lonHalfSpan "FN20".data ∧
    latHalfSpan "fn20xp".data < latHalfSpan "FN20".data := by
  have h : "FN20".data = ['F', 'N', '2', '0'] := by decide
  have h6 : "fn20xp".data = ['f', 'n', '2', '0', 'x', 'p'] := by decide
  refine ⟨?_, ?_, ?_, ?_, by norm_num, by norm_num, by norm_num, by norm_num, ?_, ?_⟩
  · rw [gridToLatLon, h]
    simp [gridToLatLonL, parseDigit, Char.isDigit, Char.toUpper, JSNum.add, JSNum.mul]
    norm_num
  · rw [gridToLatLon, h6]
    simp [gridToLatLonL, parseDigit, Char.isDigit, Char.toUpper, JSNum.add, JSNum.mul]
    norm_num
  · rw [h]
    simp [swLat, letterIdx, digitIdx, Char.toUpper]
    norm_num
  · rw [h]
    simp [swLon, letterIdx, digitIdx, Char.toUpper]
    norm_num
  · rw [h, h6]
    simp [lonHalfSpan]
    norm_num
  · rw [h, h6]
    simp [latHalfSpan]
    norm_num

/-- C6: on every valid locator the resolver returns the center of the
resolved square or sub-square — the south-west corner plus half the
longitude span (1° for 4 characters, 1/24° for 6) and half the latitude
span (0.5° for 4 characters, 0.5/24° for 6) — never the corner itself. -/
theorem gridToLatLon_center (g : List Char) (h : ValidLocator g) :
    gridToLatLonL g =
      some ⟨.fin (swLat g + latHalfSpan g), .fin (swLon g + lonHalfSpan g)⟩ ∧
    swLat g + latHalfSpan g ≠ swLat g ∧ swLon g + lonHalfSpan g ≠ swLon g := by
  obtain ⟨hlen, hA, hB, hc, hd, hsub⟩ := h
  rcases hlen with h4 | h6
  · obtain ⟨a, b, c, d, rfl⟩ := list_len4 h4
    simp only [List.getD, List.get?, Option.getD_some] at hc hd
    refine ⟨?_, ?_, ?_⟩
    · simp only [gridToLatLonL, List.map, List.getD, List.get?, Option.getD_some,
        List.length_cons, List.length_nil, parseDigit, toUpper_of_isDigit hc,
        toUpper_of_isDigit hd, hc, hd,
        if_true, swLat, swLon, letterIdx, digitIdx, latHalfSpan, lonHalfSpan]
      norm_num [JSNum.add, JSNum.mul]
      all_goals first | (constructor <;> ring) | ring
    · simp [latHalfSpan]
    · simp [lonHalfSpan]
  · obtain ⟨a, b, c, d, e, f, rfl⟩ := list_len6 h6
    simp only [List.getD, List.get?, Option.getD_some] at hc hd
    refine ⟨?_, ?_, ?_⟩
    · simp only [gridToLatLonL, List.map, List.getD, List.get?, Option.getD_some,
        List.length_cons, List.length_nil, parseDigit, toUpper_of_isDigit hc,
        toUpper_of_isDigit hd, hc, hd,
        if_true, swLat, swLon, letterIdx, digitIdx, latHalfSpan, lonHalfSpan]
      norm_num [JSNum.add, JSNum.mul]
      all_goals first | (constructor <;> ring) | ring
    · simp [latHalfSpan]
    · simp [lonHalfSpan]

/-- C7: whenever both coordinates are finite with latitude and longitude
deltas below 0.5° (in particular two identical coordinates), or any
component is non-finite, the path generator returns exactly the two-point
segment and the spherical interpolation — with its division by
`sin d` — is never entered. -/
theorem greatCircle_guards :
    (∀ (qa ra qb rb : ℚ) (n : ℕ), |qb - qa| < 0.5 → |rb - ra| < 0.5 →
        getGreatCirclePath (.fin qa) (.fin ra) (.fin qb) (.fin rb) n =
          .segment [(.fin qa, .fin ra), (.fin qb, .fin rb)]) ∧
    (∀ (a b c d : JSNum) (n : ℕ),
        (a.isFinite && b.isFinite && c.isFinite && d.isFinite) = false →
        getGreatCirclePath a b c d n = .segment [(a, b), (c, d)]) := by
  constructor
  · intro qa ra qb rb n h1 h2
    have h1a : |qb + -qa| < 0.5 := by rwa [← sub_eq_add_neg]
    have h2a : |rb + -ra| < 0.5 := by rwa [← sub_eq_add_neg]
    unfold getGreatCirclePath
    simp [JSNum.isFinite, JSNum.sub, JSNum.neg, JSNum.add, JSNum.abs, JSNum.lt, h1a, h2a]
  · intro a b c d n h
    unfold getGreatCirclePath
    simp [h]

/-- C7 witness: the theorem applied to a pair of identical finite
coordinates and to a pair whose first latitude is `NaN`. -/
theorem greatCircle_guards_witness :
    getGreatCirclePath (.fin 40.5) (.fin (-75)) (.fin 40.5) (.fin (-75)) 30 =
      .segment [(.fin 40.5, .fin (-75)), (.fin 40.5, .fin (-75))] ∧
    getGreatCirclePath .nan (.fin 0) (.fin 1) (.fin 2) 30 =
      .segment [(.nan, .fin 0), (.fin 1, .fin 2)] :=
  ⟨greatCircle_guards.1 40.5 (-75) 40.5 (-75) 30 (by norm_num) (by norm_num),
   greatCircle_guards.2 .nan (.fin 0) (.fin 1) (.fin 2) 30 (by decide)⟩

/-- C9: when the retrieval or parsing fails (a rejected fetch or a
non-2xx response, both of which throw), the retained spot set, the
statistics and the whole state are left exactly as they were, the failure
is reported only to the console log, and the internally raised error is
swallowed rather than surfaced to the caller. -/
theorem fetch_fail_soft (callsign : String) (outcome : FetchOutcome) (now tw : ℤ)
    (st : RBNState) (hc : ¬(callsign = "" ∨ callsign = "N0CALL"))
    (hfail : outcome = .netError ∨ ∃ status, outcome = .httpError status) :
    (fetchRBNSpots callsign outcome now tw st).1 = st ∧
    (fetchRBNSpots callsign outcome now tw st).2 = [.fetching callsign, .fetchError] ∧
    ∃ e, fetchTry outcome now tw st = .error e := by
  have herr : ∃ e, fetchTry outcome now tw st = .error e := by
    rcases hfail with rfl | ⟨status, rfl⟩
    · exact ⟨_, rfl⟩
    · exact ⟨_, rfl⟩
  obtain ⟨e, he⟩ := herr
  unfold fetchRBNSpots
  rw [if_neg hc, he]
  exact ⟨rfl, rfl, ⟨e, rfl⟩⟩

/-- C9 witness: the theorem applied to a configured callsign and a
network failure on a concrete prior state. -/
theorem fetch_fail_soft_witness :
    (fetchRBNSpots "AB1CD" .netError 0 30 st0).1 = st0 ∧
    (fetchRBNSpots "AB1CD" .netError 0 30 st0).2 = [.fetching "AB1CD", .fetchError] ∧
    ∃ e, fetchTry .netError 0 30 st0 = .error e :=
  fetch_fail_soft "AB1CD" .netError 0 30 st0 (by decide) (Or.inl rfl)

/-- C10: a spot with no SNR under either spelling gets the substituted
value 0 in the redraw pass: it passes the filter iff the band filter
admits it and 0 ≥ minSnrDb, and its marker and path take the color and
size of the `[0,10)` tier — never the neutral-gray absent styling. -/
theorem absent_snr_defaults_zero (s : RawSpot) (h1 : s.snr = none) (h2 : s.db = none) :
    snrOfR s = 0 ∧
    (∀ sb m, passesFilter sb m s = true ↔ ((sb = "All" ∨ bandOf s = sb) ∧ 0 ≥ m)) ∧
    getSNRColor (some (snrOfR s)) = "#ff9933" ∧
    getMarkerSize (some (snrOfR s)) = 8 ∧
    getSNRColor (some (snrOfR s)) ≠ "#888888" ∧
    getMarkerSize (some (snrOfR s)) ≠ getMarkerSize none ∧
    (∀ (home : ℚ × ℚ) (g : String) (loc : Coord),
        jsOrStr s.grid s.de_grid = some g → g ≠ "" → gridToLatLon g = some loc →
        spotPrimitives home true s =
          [.pathLine (getGreatCirclePath (.fin home.1) (.fin home.2) loc.lat loc.lon 30)
             "#ff9933",
           .marker loc 8 "#ff9933" "#ffffff"]) := by
  have hz : snrOfR s = 0 := by simp [snrOfR, jsNumOr0, jsOrQ, h1, h2]
  refine ⟨hz, ?_, ?_, ?_, ?_, ?_, ?_⟩
  · intro sb m
    simp only [passesFilter, hz]
    split_ifs with hb hs <;> simp_all <;> first | tauto | linarith
  · rw [hz] ; norm_num [getSNRColor]
  · rw [hz] ; norm_num [getMarkerSize]
  · rw [hz] ; norm_num [getSNRColor] ; decide
  · rw [hz] ; norm_num [getMarkerSize]
  · intro home g loc hg hgne hloc
    simp only [spotPrimitives, hg, hloc, if_neg hgne, if_true, hz]
    norm_num [getSNRColor, getMarkerSize]

/-- C10 witness: the theorem applied to a concrete spot with no SNR field
and grid `"FN20"`, with the filter read at minSnrDb 0 and −10. -/
theorem absent_snr_defaults_zero_witness :
    snrOfR spotC = 0 ∧
    (passesFilter "All" 0 spotC = true ↔ ((("All" : String) = "All" ∨ bandOf spotC = "All") ∧
      (0 : ℚ) ≥ 0)) ∧
    getSNRColor (some (snrOfR spotC)) = "#ff9933" ∧
    getMarkerSize (some (snrOfR spotC)) = 8 := by
  obtain ⟨ha, hb, hcol, hsz, -, -, -⟩ := absent_snr_defaults_zero spotC rfl rfl
  exact ⟨ha, hb "All" 0, hcol, hsz⟩

/-- C1 counterexample: a retained set whose SNR values are `[0, 10]`
(both present in the `snr` field).  The claim demands the mean 5.0 of all
present SNR values, but `s.snr || s.db` treats the falsy value 0 as
absent, so the code averages only `[10]` and reports 10.0. -/
theorem stats_avg_counterexample :
    (computeStats [snrSpot (some 0), snrSpot (some 10)]).avgSNR = 10 ∧
    claimAvgSNR [snrSpot (some 0), snrSpot (some 10)] = 5 ∧
    (computeStats [snrSpot (some 0), snrSpot (some 10)]).avgSNR ≠
      claimAvgSNR [snrSpot (some 0), snrSpot (some 10)] ∧
    (computeStats [snrSpot (some 0), snrSpot (some 10)]).total = 2 := by
  norm_num [computeStats, claimAvgSNR, presentSNRs, snrSpot, jsOrQ, jsOrStr, jsToFixed1,
    round_eq, List.dedup, List.foldl, List.filterMap]

/-- C1 amended: on every refresh the statistics are computed from exactly
the retained set — `totalSpots` is its count, `uniqueReporters` is the
cardinality of the set of coalesced (`callsign || de`) reporter values,
and `averageSnrDb` is the mean, rounded to one decimal place, of the
truthy-coalesced (`snr || db`) SNR values (so a present SNR of 0 in the
`snr` field with no `db` field counts as absent), or 0 when no such value
exists; SNRs `[10, 20, absent]` yield 15.0 with `totalSpots` 3, and two
spots with one reporter yield `uniqueReporters` 1. -/
theorem stats_match_amended_spec :
    (∀ l : List RawSpot, computeStats l = specStatsAmended l) ∧
    computeStats [snrSpot (some 10), snrSpot (some 20), snrSpot none] = ⟨3, 1, 15⟩ ∧
    (computeStats [reporterSpot "W1AW", reporterSpot "W1AW"]).skimmers = 1 := by
  refine ⟨?_, ?_, ?_⟩
  · intro l
    unfold computeStats specStatsAmended
    simp only [Stats.mk.injEq, List.reduceOption, List.sum_eq_foldl]
    exact ⟨trivial, (List.card_toFinset _).symm, trivial⟩
  · norm_num [computeStats, snrSpot, jsOrQ, jsOrStr, jsToFixed1, round_eq, List.dedup,
      List.foldl, List.filterMap]
  · norm_num [computeStats, reporterSpot, jsOrStr, List.dedup]

/-- The fetch path never flips the enable flag. -/
theorem fetch_preserves_enabled (callsign : String) (outcome : FetchOutcome) (now tw : ℤ)
    (st : RBNState) : ((fetchRBNSpots callsign outcome now tw st).1).enabled = st.enabled := by
  unfold fetchRBNSpots fetchTry
  rcases outcome with _ | status | _ | data <;> split_ifs <;> simp

/-- The fetch path never touches the drawn primitives. -/
theorem fetch_preserves_layers (callsign : String) (outcome : FetchOutcome) (now tw : ℤ)
    (st : RBNState) : ((fetchRBNSpots callsign outcome now tw st).1).layers = st.layers := by
  unfold fetchRBNSpots fetchTry
  rcases outcome with _ | status | _ | data <;> split_ifs <;> simp

/-- The effect bodies never change the retained spots. -/
theorem applyEffects_spots (cfg : Config) (st : RBNState) :
    (applyEffects cfg st).spots = st.spots := by
  unfold applyEffects renderEffect cleanupEffect
  split_ifs <;> simp

/-- The effect bodies never change the statistics. -/
theorem applyEffects_stats (cfg : Config) (st : RBNState) :
    (applyEffects cfg st).stats = st.stats := by
  unfold applyEffects renderEffect cleanupEffect
  split_ifs <;> simp

/-- After the effect bodies run on a disabled state, no primitive remains. -/
theorem applyEffects_layers_disabled (cfg : Config) (st : RBNState)
    (h : st.enabled = false) : (applyEffects cfg st).layers = [] := by
  unfold applyEffects renderEffect cleanupEffect
  split_ifs <;> simp_all

/-- C3 counterexample: in the concrete trace `st0 → disable → st1 →
late response → st2`, the overlay is disabled (`st1.enabled = false`)
when the response resolves, yet the response is committed: the retained
spots and statistics change.  No enabled-state check precedes the commit,
refuting "the late-arriving response is discarded rather than applied"
(the drawing surface is nevertheless left empty). -/
theorem late_response_committed_while_disabled :
    st1.enabled = false ∧ st1.layers = [] ∧ st1.spots = [spotA] ∧
    st2.spots = [spotB] ∧ st2.spots ≠ st1.spots ∧ st2.stats ≠ st1.stats ∧
    st2.layers = [] := by
  have h1 : st1 = ⟨false, [spotA], computeStats [spotA], []⟩ := by
    unfold st1 step applyEffects renderEffect cleanupEffect st0 cfg0
    simp
  have hrecent : recentFilter 1000000000 (cfg0.timeWindow) [spotB] = [spotB] := by
    norm_num [recentFilter, spotTime, spotB, jsOrInt, JSNum.lt, List.filter, cfg0]
  have h2 : st2 = ⟨false, [spotB], computeStats [spotB], []⟩ := by
    unfold st2
    rw [h1]
    simp only [step]
    have hfetch : fetchRBNSpots cfg0.callsign (.ok (some [spotB])) 1000000000 cfg0.timeWindow
        ⟨false, [spotA], computeStats [spotA], []⟩ =
        (⟨false, [spotB], computeStats [spotB], []⟩, [.fetching cfg0.callsign, .received 1]) := by
      rw [fetchRBNSpots, if_neg (by decide)]
      simp [fetchTry, hrecent]
    rw [hfetch]
    unfold applyEffects renderEffect cleanupEffect
    simp
  have hstatsA : computeStats [spotA] = ⟨1, 1, 10⟩ := by
    norm_num [computeStats, spotA, jsOrQ, jsOrStr, jsToFixed1, round_eq, List.dedup,
      List.foldl, List.filterMap]
  have hstatsB : computeStats [spotB] = ⟨1, 1, 5⟩ := by
    norm_num [computeStats, spotB, jsOrQ, jsOrStr, jsToFixed1, round_eq, List.dedup,
      List.foldl, List.filterMap]
  rw [h1, h2, hstatsA, hstatsB]
  refine ⟨rfl, rfl, rfl, rfl, by simp [spotA, spotB], by simp, rfl⟩

/-- C3 amended: no enabled-state check precedes the commit — with a
configured callsign, a late successful array response still replaces the
retained spots and statistics even though the overlay is disabled; but
the redraw pass is gated on the enabled state and the teardown pass has
cleared the surface, so zero drawable primitives remain after the
response resolves. -/
theorem late_response_amended (cfg : Config) (st : RBNState) (outcome : FetchOutcome)
    (now : ℤ) (hdis : st.enabled = false) :
    (step cfg st (.fetchResolve outcome now)).layers = [] ∧
    (step cfg st (.fetchResolve outcome now)).enabled = false ∧
    (∀ data, outcome = .ok (some data) → cfg.callsign ≠ "" → cfg.callsign ≠ "N0CALL" →
      (step cfg st (.fetchResolve outcome now)).spots =
        recentFilter now cfg.timeWindow data ∧
      (step cfg st (.fetchResolve outcome now)).stats =
        computeStats (recentFilter now cfg.timeWindow data)) := by
  have hen : ((fetchRBNSpots cfg.callsign outcome now cfg.timeWindow st).1).enabled = false := by
    rw [fetch_preserves_enabled, hdis]
  refine ⟨?_, ?_, ?_⟩
  · show (applyEffects _ _).layers = []
    exact applyEffects_layers_disabled _ _ hen
  · show (applyEffects _ _).enabled = false
    unfold applyEffects renderEffect cleanupEffect
    split_ifs <;> simp_all
  · rintro data rfl hne1 hne2
    have hfetch : fetchRBNSpots cfg.callsign (.ok (some data)) now cfg.timeWindow st =
        ({ st with spots := recentFilter now cfg.timeWindow data,
                   stats := computeStats (recentFilter now cfg.timeWindow data) },
         [.fetching cfg.callsign, .received data.length]) := by
      rw [fetchRBNSpots, if_neg (by tauto)]
      simp [fetchTry]
    constructor
    · show (applyEffects _ _).spots = _
      rw [applyEffects_spots, hfetch]
    · show (applyEffects _ _).stats = _
      rw [applyEffects_stats, hfetch]

/-- C3 amended witness: the theorem applied to the configured session
`cfg0`, a concrete disabled state, and the late response carrying one
fresh spot. -/
theorem late_response_amended_witness :
    (step cfg0 stDis (.fetchResolve (.ok (some [spotB])) 1000000000)).layers = [] ∧
    (step cfg0 stDis (.fetchResolve (.ok (some [spotB])) 1000000000)).enabled = false ∧
    (step cfg0 stDis (.fetchResolve (.ok (some [spotB])) 1000000000)).spots =
      recentFilter 1000000000 cfg0.timeWindow [spotB] := by
  obtain ⟨hl, he, hs⟩ :=
    late_response_amended cfg0 stDis (.ok (some [spotB])) 1000000000 rfl
  exact ⟨hl, he, (hs [spotB] rfl (by decide) (by decide)).1⟩

/-- C6 witness: the theorem applied to the valid locators `"FN20"`
(4 characters) and `"fn20xp"` (6 characters, lowercase). -/
theorem gridToLatLon_center_witness :
    (gridToLatLonL "FN20".data =
      some ⟨.fin (swLat "FN20".data + latHalfSpan "FN20".data),
            .fin (swLon "FN20".data + lonHalfSpan "FN20".data)⟩ ∧
     swLat "FN20".data + latHalfSpan "FN20".data ≠ swLat "FN20".data ∧
     swLon "FN20".data + lonHalfSpan "FN20".data ≠ swLon "FN20".data) ∧
    (gridToLatLonL "fn20xp".data =
      some ⟨.fin (swLat "fn20xp".data + latHalfSpan "fn20xp".data),
            .fin (swLon "fn20xp".data + lonHalfSpan "fn20xp".data)⟩ ∧
     swLat "fn20xp".data + latHalfSpan "fn20xp".data ≠ swLat "fn20xp".data ∧
     swLon "fn20xp".data + lonHalfSpan "fn20xp".data ≠ swLon "fn20xp".data) :=
  ⟨gridToLatLon_center "FN20".data (by decide),
   gridToLatLon_center "fn20xp".data (by decide)⟩

end RBN
